import Mathlib

/-!
Verification of the multi-modality fusion core of the Heart-Health-Prediction
backend (`backend/routers/fusion_routes.py`), shallowly embedded in Lean 4.

Modelling conventions:
* Python floats are modelled as exact rationals (`ℚ`); the decimal literals
  in the source (0.45, 0.2, …) denote the corresponding rationals.
* A raw prediction score arrives as an optional string.  Python's
  `float(str)` either raises (the string does not parse) or yields a float,
  and that float may be NaN (`float("nan")` parses).  The full model is
  `RawScoreF` over `PyFloat` (a rational or NaN, with every NaN comparison
  False, as in IEEE-754); `RawScore` is its NaN-free fragment, used by the
  claims whose inputs are numeric-or-absent.
* Python strings are Lean `String`s; `str.upper()`/`str.lower()` map
  `Char.toUpper`/`Char.toLower` over the characters (exact for the ASCII
  tags and labels at hand), `str.isdigit()` is modelled for ASCII digit
  strings, and `"needle" in hay` is substring containment on the character
  lists.
* The Python `dict`s (`latest_by_type`, `modality_scores`) preserve insertion
  order and are keyed lookups; they are modelled as association lists with
  first-key-wins insertion, which reproduces both properties.
-/

namespace HeartFusion

/-- Raw score input of `_parse_score`, NaN-free fragment: `None`, a string
`float()` rejects, or a string parsing to an ordinary number.  The full
model, which also represents a score string parsing to NaN, is `RawScoreF`
below. -/
inductive RawScore where
  | absent : RawScore
  | unparsable : String → RawScore
  | numeric : ℚ → RawScore
deriving DecidableEq

/-- `_parse_score` (fusion_routes.py:25-31): `None` stays `None`, a
non-numeric string is swallowed to `None`, a numeric string yields its
value. -/
def _parse_score : RawScore → Option ℚ
  | .absent => none
  | .unparsable _ => none
  | .numeric q => some q

/-- Python `str.upper()` restricted to ASCII: uppercase every character.
(Stated on the character list so the kernel can evaluate it; `String.map`
itself recurses on byte positions.) -/
def pyUpper (s : String) : String :=
  ⟨s.data.map Char.toUpper⟩

/-- Python `str.lower()` restricted to ASCII: lowercase every character. -/
def pyLower (s : String) : String :=
  ⟨s.data.map Char.toLower⟩

/-- Python `str.isdigit()` restricted to ASCII: non-empty and all characters
are decimal digits. -/
def pyIsdigit (s : String) : Bool :=
  !s.data.isEmpty && s.data.all Char.isDigit

/-- Python `int(label)` on a digit string: fold the decimal digits. -/
def digitsToNat (s : String) : ℕ :=
  s.data.foldl (fun n c => 10 * n + (c.toNat - 48)) 0

/-- Boolean substring test on character lists: Python `needle in hay`. -/
def subListAux (needle : List Char) : List Char → Bool
  | [] => needle.isEmpty
  | c :: cs => needle.isPrefixOf (c :: cs) || subListAux needle cs

/-- Python `"needle" in hay` for strings. -/
def strContainsSub (hay needle : String) : Bool :=
  subListAux needle.data hay.data

/-- `_label_to_risk` (fusion_routes.py:34-46).  `None` or the empty string is
falsy (`if not label`) and yields `None`; a pure digit string is the legacy
class index (0.0 iff the index is 3); otherwise a label whose lowercasing
contains `"normal"` maps to 0.0 and anything else to 1.0. -/
def _label_to_risk : Option String → Option ℚ
  | none => none
  | some l =>
    if l = "" then none
    else if pyIsdigit l then (if digitsToNat l = 3 then some 0 else some 1)
    else if strContainsSub (pyLower l) "normal" then some 0
    else some 1

/-- `_normalize_score` (fusion_routes.py:49-63): use the parsed probability
when present (clamping below 0, collapsing values above 1 through the 0.5
threshold), otherwise fall back to the label mapping, otherwise 0.5. -/
def _normalize_score (score : Option ℚ) (label : Option String) : ℚ :=
  match score with
  | some s =>
    if s < 0 then 0
    else if s > 1 then (if s ≥ 0.5 then 1 else 0)
    else s
  | none => (_label_to_risk label).getD 0.5

/-- The normalizer applied to the raw (string-level) score input, composing
`_parse_score` with `_normalize_score` exactly as `fusion_report` does. -/
def normalizeRaw (raw : RawScore) (label : Option String) : ℚ :=
  _normalize_score (_parse_score raw) label

/-- Python float value: an ordinary (rational) number or NaN.  `float("nan")`
is accepted by `float()`, so NaN can reach `_normalize_score`. -/
inductive PyFloat where
  | num : ℚ → PyFloat
  | nan : PyFloat
deriving DecidableEq

/-- Python `<` on floats: every comparison against NaN is False. -/
def PyFloat.ltb : PyFloat → PyFloat → Bool
  | .num a, .num b => decide (a < b)
  | _, _ => false

/-- Python `>` on floats: every comparison against NaN is False. -/
def PyFloat.gtb : PyFloat → PyFloat → Bool
  | .num a, .num b => decide (b < a)
  | _, _ => false

/-- Python `>=` on floats: every comparison against NaN is False. -/
def PyFloat.geb : PyFloat → PyFloat → Bool
  | .num a, .num b => decide (b ≤ a)
  | _, _ => false

/-- The interval membership the spec asserts of normalizer outputs: an
ordinary number in `[0, 1]`; NaN is outside. -/
def PyFloat.inUnit : PyFloat → Prop
  | .num q => 0 ≤ q ∧ q ≤ 1
  | .nan => False

/-- Raw score input of `_parse_score`, full model: `None`, a string
`float()` rejects, a string parsing to an ordinary number, or the string
"nan" (or "NAN", "NaN", …), which `float()` parses to NaN. -/
inductive RawScoreF where
  | absent : RawScoreF
  | unparsable : String → RawScoreF
  | numeric : ℚ → RawScoreF
  | nan : RawScoreF
deriving DecidableEq

/-- `_parse_score` (fusion_routes.py:25-31) over the full float model. -/
def parseScoreF : RawScoreF → Option PyFloat
  | .absent => none
  | .unparsable _ => none
  | .numeric q => some (.num q)
  | .nan => some .nan

/-- `_normalize_score` (fusion_routes.py:49-63) over the full float model:
`score < 0.0` and `score > 1.0` are both False for a NaN score, so NaN
falls through both clamps and is returned unchanged. -/
def normalizeScoreF (score : Option PyFloat) (label : Option String) : PyFloat :=
  match score with
  | some s =>
    if s.ltb (.num 0) then .num 0
    else if s.gtb (.num 1) then (if s.geb (.num 0.5) then .num 1 else .num 0)
    else s
  | none => .num ((_label_to_risk label).getD 0.5)

/-- The full-model normalizer applied to the raw score input. -/
def normalizeRawF (raw : RawScoreF) (label : Option String) : PyFloat :=
  normalizeScoreF (parseScoreF raw) label

/-- The modality weight table of `_aggregate_fusion` (fusion_routes.py:68-72,
76): `weights.get(k, 0.2)`. -/
def weightOf (k : String) : ℚ :=
  if k = "ECG" then 0.45
  else if k = "PPG" then 0.25
  else if k = "HEART_CSV" then 0.30
  else 0.2

/-- The tier text computed from the fused value (fusion_routes.py:81-88),
extracted verbatim from the tail of `_aggregate_fusion`. -/
def riskStatus (fused : ℚ) : String :=
  if fused < 0.2 then "Low risk"
  else if fused < 0.5 then "Moderate risk"
  else if fused < 0.8 then "Elevated risk"
  else "High risk"

/-- `_aggregate_fusion` (fusion_routes.py:66-89): accumulate
`total += w * v` and `total_w += w` over the modality→score mapping, divide
when any weight accumulated, else default to 0.5, and attach the tier. -/
def _aggregate_fusion (scores : List (String × ℚ)) : ℚ × String :=
  let acc := scores.foldl
    (fun (a : ℚ × ℚ) kv => (a.1 + weightOf kv.1 * kv.2, a.2 + weightOf kv.1))
    (0, 0)
  let fused := if acc.2 > 0 then acc.1 / acc.2 else 0.5
  (fused, riskStatus fused)

/-- The spec's formula for the overall score, written from the spec's words:
`overall = Σ(weight_i * score_i) / Σ(weight_i)` over the present
modalities. -/
def aggregateSpecOverall (scores : List (String × ℚ)) : ℚ :=
  (scores.map (fun kv => weightOf kv.1 * kv.2)).sum
    / (scores.map (fun kv => weightOf kv.1)).sum

/-- The fields of a `Submission` row that the fusion pipeline reads
(models.py / fusion_routes.py: `test_type`, `predicted_score`,
`predicted_label`, `file_name`, `created_at`).  `predicted_score` is the raw
optional string, carried as `RawScore`; `created_at` is an abstract
timestamp. -/
structure Submission where
  test_type : Option String
  predicted_score : RawScore
  predicted_label : Option String
  file_name : Option String
  created_at : ℕ
deriving DecidableEq

/-- The grouping tag of a record (fusion_routes.py:186):
`(s.test_type or "").upper() or "ECG"` — uppercase the tag, and replace a
missing or empty tag by `"ECG"`. -/
def tagOf (s : Submission) : String :=
  if pyUpper (s.test_type.getD "") = "" then "ECG"
  else pyUpper (s.test_type.getD "")

/-- The `latest_by_type` loop (fusion_routes.py:184-188): walk the records
(newest-first as queried), keep the first record seen for each tag.  `seen`
carries the keys already in the dict; the result preserves insertion
order. -/
def selectAux (seen : List String) : List Submission → List (String × Submission)
  | [] => []
  | s :: rest =>
    let t := tagOf s
    if seen.contains t then selectAux seen rest
    else (t, s) :: selectAux (t :: seen) rest

/-- The modality selector: `latest_by_type` built from an empty dict. -/
def selectLatest (subs : List Submission) : List (String × Submission) :=
  selectAux [] subs

/-- One row of the `details` list assembled by `fusion_report`
(fusion_routes.py:197-203).  The risk is kept as the exact rational (the
source formats it as `f"{risk:.3f}"` for display). -/
structure ModalityDetail where
  type : String
  result : String
  score : ℚ
  source : String
  time : ℕ
deriving DecidableEq

/-- The pure core of `fusion_report` (fusion_routes.py:169-218): `none` on
the empty submission set (the "no submissions" error page), otherwise select
the latest record per modality, normalize each to a risk score, build the
per-modality details, and aggregate. -/
def fusionReportCore (subs : List Submission) :
    Option (ℚ × String × List ModalityDetail) :=
  if subs = [] then none
  else
    let latest := selectLatest subs
    let modality_scores := latest.map
      (fun ts => (ts.1, normalizeRaw ts.2.predicted_score ts.2.predicted_label))
    let details := latest.map (fun ts =>
      let risk := normalizeRaw ts.2.predicted_score ts.2.predicted_label
      ModalityDetail.mk ts.1 (if risk < 0.5 then "Normal" else "Abnormal")
        risk (ts.2.file_name.getD "") ts.2.created_at)
    let fs := _aggregate_fusion modality_scores
    some (fs.1, fs.2, details)

/-- The `_build_guidance` bundle (fusion_routes.py:160-166). -/
structure Guidance where
  precautions : List String
  measurements : List String
  consult : List String
  diet : List String
  habits : List String
deriving DecidableEq

/-- Tier-invariant `diet` list (fusion_routes.py:149-153). -/
def dietList : List String :=
  ["Emphasize vegetables, fruits, legumes, nuts, whole grains.",
   "Prefer olive oil; limit processed foods, trans fats, and high sodium.",
   "Fish 2x/week; consider plant‑based proteins routinely."]

/-- Tier-invariant `habits` list (fusion_routes.py:154-158). -/
def habitsList : List String :=
  ["No smoking or vaping; avoid secondhand smoke.",
   "Regular physical activity; incorporate strength training 2x/week.",
   "Sleep hygiene: consistent schedule, dark/cool room, limit screens before bed."]

/-- `_build_guidance` (fusion_routes.py:92-166): tier-dependent precautions,
measurements and consult lists chosen by the same thresholds as the
aggregator, with the shared diet/habits lists appended to every bundle. -/
def _build_guidance (fused : ℚ) : Guidance :=
  if fused < 0.2 then
    { precautions :=
        ["Maintain routine annual checkups and blood pressure/lipid screening.",
         "Continue 150 minutes/week of moderate aerobic exercise.",
         "Avoid tobacco exposure and maintain healthy BMI."],
      measurements :=
        ["Home BP: weekly if history of hypertension, otherwise monthly.",
         "Weight and waist circumference monthly."],
      consult :=
        ["Primary care physician for preventive care as needed."],
      diet := dietList, habits := habitsList }
  else if fused < 0.5 then
    { precautions :=
        ["Increase physical activity; aim for 150–300 minutes/week.",
         "Adopt Mediterranean-style diet; limit sodium to <2g/day.",
         "Target sleep 7–9 hours; manage stress with mindfulness."],
      measurements :=
        ["Check BP twice weekly for 2 weeks; track average.",
         "Fasting lipids and HbA1c at next visit if not done in 12 months."],
      consult :=
        ["Primary care for risk review; consider statin eligibility per guidelines."],
      diet := dietList, habits := habitsList }
  else if fused < 0.8 then
    { precautions :=
        ["Prioritize BP, glucose, and lipid control; adhere to medications if prescribed.",
         "Reduce refined carbs and saturated fats; increase fiber and omega‑3 sources.",
         "Avoid smoking/vaping; limit alcohol to recommended amounts."],
      measurements :=
        ["Home BP daily for 1–2 weeks; bring log to clinic.",
         "Consider ambulatory BP monitoring if variability is high."],
      consult :=
        ["Schedule a clinician visit for cardiovascular risk optimization.",
         "Discuss need for echocardiogram or stress testing based on symptoms and history."],
      diet := dietList, habits := habitsList }
  else
    { precautions :=
        ["Seek prompt clinical assessment, especially if chest pain, dyspnea, or syncope.",
         "Avoid strenuous exertion until cleared by clinician.",
         "Strict adherence to cardio‑protective medications if prescribed."],
      measurements :=
        ["Immediate BP/HR assessment; track vitals if advised.",
         "If acute symptoms, urgent evaluation including ECG and troponin per clinician."],
      consult :=
        ["Cardiologist consultation recommended.",
         "Emergency care if acute concerning symptoms occur."],
      diet := dietList, habits := habitsList }

/-- The SMTP options read by `_smtp_config` (fusion_routes.py:221-229) that
the email route inspects. -/
structure SmtpConfig where
  host : String
  sender : String
  user : String
deriving DecidableEq

/-- Detail string of the configuration error (fusion_routes.py:383). -/
def smtpNotConfiguredDetail : String :=
  "SMTP not configured. Set SMTP_HOST, SMTP_USER/SMTP_SENDER, SMTP_PASSWORD."

/-- Detail string of the transport error (fusion_routes.py:414), carrying the
transport exception's text. -/
def sendFailDetail (e : String) : String :=
  "Failed to send email: " ++ e

/-- The `HTTPException(status_code, detail)` raised by the email route. -/
structure HttpError where
  status : ℕ
  detail : String
deriving DecidableEq

/-- The tail of `fusion_report_email` (fusion_routes.py:378-416), modelled as
a state-passing function over the set of files on disk.  The PDF is generated
(written to disk) first; then a missing host or sender raises the
configuration `HTTPException`; otherwise the SMTP send runs, whose outcome
`send` is an oracle for the external transport (`.ok` delivered, `.error e`
the exception text), a failure raising the transport `HTTPException`.  No
branch removes the generated file. -/
def fusionReportEmailStep (cfg : SmtpConfig) (send : Except String Unit)
    (files : List String) (pdfName : String) :
    List String × Except HttpError Unit :=
  let files1 := pdfName :: files
  if cfg.host = "" || cfg.sender = "" then
    (files1, .error ⟨500, smtpNotConfiguredDetail⟩)
  else
    match send with
    | .ok _ => (files1, .ok ())
    | .error e => (files1, .error ⟨500, sendFailDetail e⟩)

/-! Helper lemmas. -/

/-- The aggregation fold accumulates exactly the two sums. -/
lemma agg_foldl_eq (scores : List (String × ℚ)) :
    ∀ a b : ℚ,
      scores.foldl
        (fun (x : ℚ × ℚ) kv => (x.1 + weightOf kv.1 * kv.2, x.2 + weightOf kv.1))
        (a, b)
      = (a + (scores.map fun kv => weightOf kv.1 * kv.2).sum,
         b + (scores.map fun kv => weightOf kv.1).sum) := by
  induction scores with
  | nil => intro a b; simp
  | cons hd tl ih =>
    intro a b
    simp only [List.foldl_cons, List.map_cons, List.sum_cons]
    rw [ih]
    refine Prod.ext ?_ ?_ <;> dsimp only <;> ring

/-- Every modality weight is positive (the default 0.2 included). -/
lemma weightOf_pos (k : String) : 0 < weightOf k := by
  unfold weightOf
  split_ifs <;> norm_num

/-- The accumulated weight of a non-empty score mapping is positive. -/
lemma totalWeight_pos (scores : List (String × ℚ)) (h : scores ≠ []) :
    0 < (scores.map fun kv => weightOf kv.1).sum := by
  apply List.sum_pos
  · intro x hx
    obtain ⟨kv, _, rfl⟩ := List.mem_map.mp hx
    exact weightOf_pos _
  · intro hm
    exact h (List.map_eq_nil_iff.mp hm)

/-- The second component of the aggregator is the tier of the first. -/
lemma agg_snd (scores : List (String × ℚ)) :
    (_aggregate_fusion scores).2 = riskStatus (_aggregate_fusion scores).1 := rfl

/-- `_label_to_risk` only ever produces `none`, `some 0` or `some 1`. -/
lemma label_to_risk_cases (l : Option String) :
    _label_to_risk l = none ∨ _label_to_risk l = some 0 ∨ _label_to_risk l = some 1 := by
  cases l with
  | none => exact Or.inl rfl
  | some s =>
    simp only [_label_to_risk]
    split_ifs <;> simp

/-- `_normalize_score` stays in `[0, 1]` on every input. -/
lemma normalize_bounds (score : Option ℚ) (label : Option String) :
    0 ≤ _normalize_score score label ∧ _normalize_score score label ≤ 1 := by
  cases score with
  | some s =>
    simp only [_normalize_score]
    split_ifs with h1 h2 h3
    · norm_num
    · norm_num
    · norm_num
    · exact ⟨not_lt.mp h1, not_lt.mp h2⟩
  | none =>
    simp only [_normalize_score]
    rcases label_to_risk_cases label with h | h | h <;> rw [h] <;> norm_num

/-- A record whose tag is already in the dict is skipped. -/
lemma selectAux_cons_mem (s : Submission) (rest : List Submission)
    (seen : List String) (hs : tagOf s ∈ seen) :
    selectAux seen (s :: rest) = selectAux seen rest := by
  simp [selectAux, hs]

/-- A record with a fresh tag is inserted and its tag marked seen. -/
lemma selectAux_cons_not_mem (s : Submission) (rest : List Submission)
    (seen : List String) (hs : tagOf s ∉ seen) :
    selectAux seen (s :: rest) =
      (tagOf s, s) :: selectAux (tagOf s :: seen) rest := by
  simp [selectAux, hs]

/-- Looking a tag up in the built dict finds the first record with that tag,
unless the tag was already marked seen. -/
lemma selectAux_lookup (subs : List Submission) :
    ∀ (seen : List String) (t : String),
      List.lookup t (selectAux seen subs) =
        if t ∈ seen then none
        else subs.find? (fun s => tagOf s == t) := by
  induction subs with
  | nil => intro seen t; simp [selectAux]
  | cons s rest ih =>
    intro seen t
    by_cases hs : tagOf s ∈ seen
    · rw [selectAux_cons_mem s rest seen hs, ih seen t]
      by_cases ht : t ∈ seen
      · simp [ht]
      · have hne : (tagOf s == t) = false := by
          simp only [beq_eq_false_iff_ne, ne_eq]
          intro he
          exact ht (he ▸ hs)
        simp [ht, List.find?, hne]
    · rw [selectAux_cons_not_mem s rest seen hs]
      by_cases ht : tagOf s = t
      · subst ht
        simp [List.lookup, ih, hs, List.find?]
      · have hbe : (tagOf s == t) = false := by simp [ht]
        have hbe2 : (t == tagOf s) = false := by
          simp only [beq_eq_false_iff_ne, ne_eq]
          intro he
          exact ht he.symm
        simp only [List.lookup, hbe2, List.find?, hbe]
        rw [ih (tagOf s :: seen) t]
        have hmem : (t ∈ tagOf s :: seen) ↔ (t ∈ seen) := by
          constructor
          · intro hm
            rcases List.mem_cons.mp hm with he | hm2
            · exact absurd he.symm ht
            · exact hm2
          · exact fun hm => List.mem_cons_of_mem _ hm
        simp [hmem]

/-- The keys of the built dict are distinct and disjoint from `seen`. -/
lemma selectAux_keys (subs : List Submission) :
    ∀ seen : List String,
      ((selectAux seen subs).map Prod.fst).Nodup
      ∧ ∀ k ∈ (selectAux seen subs).map Prod.fst, k ∉ seen := by
  induction subs with
  | nil => intro seen; simp [selectAux]
  | cons s rest ih =>
    intro seen
    by_cases hs : tagOf s ∈ seen
    · rw [selectAux_cons_mem s rest seen hs]
      exact ih seen
    · rw [selectAux_cons_not_mem s rest seen hs]
      obtain ⟨hnd, hdisj⟩ := ih (tagOf s :: seen)
      constructor
      · simp only [List.map_cons, List.nodup_cons]
        refine ⟨fun hmem => ?_, hnd⟩
        exact (hdisj _ hmem) (List.mem_cons_self _ _)
      · intro k hk
        simp only [List.map_cons, List.mem_cons] at hk
        rcases hk with he | hk2
        · exact he ▸ hs
        · exact fun hk3 => (hdisj k hk2) (List.mem_cons_of_mem _ hk3)

/-! Claims. -/

/-- C1: on any non-empty modality→score mapping the aggregator returns the
weighted mean over the present modalities, `Σ(wᵢ·sᵢ) / Σ wᵢ`, with weights
0.45 (ECG), 0.25 (PPG), 0.30 (HEART_CSV) and 0.20 otherwise; in particular
`aggregate {ECG ↦ 0, PPG ↦ 1}` is `(0.45·0 + 0.25·1)/(0.45 + 0.25)` with
tier "Moderate risk". -/
theorem claim_C1 :
    (∀ scores : List (String × ℚ), scores ≠ [] →
      (_aggregate_fusion scores).1 = aggregateSpecOverall scores)
    ∧ _aggregate_fusion [("ECG", 0), ("PPG", 1)] =
        ((0.45 * 0 + 0.25 * 1) / (0.45 + 0.25), "Moderate risk") := by
  have hmain : ∀ scores : List (String × ℚ), scores ≠ [] →
      (_aggregate_fusion scores).1 = aggregateSpecOverall scores := by
    intro scores h
    unfold _aggregate_fusion aggregateSpecOverall
    rw [agg_foldl_eq]
    simp only [zero_add]
    rw [if_pos (totalWeight_pos scores h)]
  have h1 : (_aggregate_fusion [("ECG", 0), ("PPG", 1)]).1 =
      (0.45 * 0 + 0.25 * 1) / (0.45 + 0.25) := by
    have wE : weightOf "ECG" = 0.45 := rfl
    have wP : weightOf "PPG" = 0.25 := rfl
    rw [hmain _ (by simp)]
    norm_num [aggregateSpecOverall, wE, wP]
  refine ⟨hmain, Prod.ext h1 ?_⟩
  rw [agg_snd, h1]
  norm_num [riskStatus]

/-- C1 witness: the weighted-mean identity instantiated at the singleton
mapping `{ECG ↦ 0}`. -/
theorem claim_C1_witness :
    ([(("ECG" : String), (0 : ℚ))] ≠ [])
    ∧ (_aggregate_fusion [("ECG", 0)]).1 = aggregateSpecOverall [("ECG", 0)] :=
  ⟨by simp, claim_C1.1 [("ECG", 0)] (by simp)⟩

/-- C2: the tier is assigned by inclusive-lower half-open intervals — Low on
[0, 0.2), Moderate on [0.2, 0.5), Elevated on [0.5, 0.8), High on [0.8, 1] —
and the empty mapping aggregates to exactly 0.5 with tier "Elevated risk"
(0.5 is the lower bound of Elevated, not Moderate). -/
theorem claim_C2 :
    (∀ x : ℚ,
      (0 ≤ x → x < 0.2 → riskStatus x = "Low risk")
      ∧ (0.2 ≤ x → x < 0.5 → riskStatus x = "Moderate risk")
      ∧ (0.5 ≤ x → x < 0.8 → riskStatus x = "Elevated risk")
      ∧ (0.8 ≤ x → x ≤ 1 → riskStatus x = "High risk"))
    ∧ _aggregate_fusion [] = (0.5, "Elevated risk") := by
  constructor
  · intro x
    refine ⟨?_, ?_, ?_, ?_⟩ <;>
      (intro h1 h2; unfold riskStatus; split_ifs <;> first | rfl | linarith)
  · have h0 : _aggregate_fusion [] = (0.5, riskStatus 0.5) := by
      unfold _aggregate_fusion
      norm_num
    rw [h0]
    norm_num [riskStatus]

/-- C2 witness: the boundary value 0.5 lands in tier "Elevated risk". -/
theorem claim_C2_witness :
    ((0.5 : ℚ) ≤ 0.5) ∧ ((0.5 : ℚ) < 0.8) ∧ riskStatus 0.5 = "Elevated risk" :=
  ⟨by norm_num, by norm_num,
    (claim_C2.1 0.5).2.2.1 (by norm_num) (by norm_num)⟩

/-- C3 counterexample: the score string "nan" is parsed by `float()`, both
clamp comparisons are False against NaN, and the normalizer returns NaN —
which is not in [0, 1]. -/
theorem claim_C3_counterexample :
    normalizeRawF RawScoreF.nan none = PyFloat.nan
    ∧ ¬ (normalizeRawF RawScoreF.nan none).inUnit :=
  ⟨rfl, fun h => h⟩

/-- C3 amended: the normalizer never lets an exception escape, and on every
input whose score does not parse to NaN it returns a float in [0, 1]: a
negative score clamps to 0, a score above 1 collapses through the 0.5
threshold, and an absent or unparsable score with an absent or empty label
yields exactly 0.5; a score parsing to NaN is returned as NaN. -/
theorem claim_C3_amended :
    (∀ (raw : RawScoreF) (label : Option String),
      parseScoreF raw ≠ some PyFloat.nan →
      (normalizeRawF raw label).inUnit)
    ∧ (∀ (q : ℚ) (label : Option String), q < 0 →
        normalizeRawF (RawScoreF.numeric q) label = PyFloat.num 0)
    ∧ (∀ (q : ℚ) (label : Option String), q > 1 →
        normalizeRawF (RawScoreF.numeric q) label =
          (if q ≥ 0.5 then PyFloat.num 1 else PyFloat.num 0))
    ∧ normalizeRawF RawScoreF.absent none = PyFloat.num 0.5
    ∧ (∀ s : String,
        normalizeRawF (RawScoreF.unparsable s) none = PyFloat.num 0.5)
    ∧ normalizeRawF RawScoreF.absent (some "") = PyFloat.num 0.5
    ∧ (∀ label : Option String,
        normalizeRawF RawScoreF.nan label = PyFloat.nan) := by
  refine ⟨?_, ?_, ?_, rfl, fun s => rfl, rfl, fun label => rfl⟩
  · intro raw label h
    cases raw with
    | absent => exact normalize_bounds none label
    | unparsable s => exact normalize_bounds none label
    | nan => exact absurd rfl h
    | numeric q =>
      show PyFloat.inUnit (normalizeScoreF (some (PyFloat.num q)) label)
      simp only [normalizeScoreF, PyFloat.ltb, PyFloat.gtb, PyFloat.geb,
        decide_eq_true_eq]
      split_ifs with h1 h2 h3
      · exact ⟨le_refl 0, by norm_num⟩
      · exact ⟨by norm_num, le_refl 1⟩
      · exact ⟨le_refl 0, by norm_num⟩
      · exact ⟨not_lt.mp h1, not_lt.mp h2⟩
  · intro q label h
    show normalizeScoreF (some (PyFloat.num q)) label = PyFloat.num 0
    simp only [normalizeScoreF, PyFloat.ltb, decide_eq_true_eq]
    rw [if_pos h]
  · intro q label h
    show normalizeScoreF (some (PyFloat.num q)) label =
      if q ≥ 0.5 then PyFloat.num 1 else PyFloat.num 0
    simp only [normalizeScoreF, PyFloat.ltb, PyFloat.gtb, PyFloat.geb,
      decide_eq_true_eq]
    rw [if_neg (by linarith), if_pos h]

/-- C3 amended witness: an absent score with an absent label does not parse
to NaN and normalizes into [0, 1] (to 0.5). -/
theorem claim_C3_amended_witness :
    parseScoreF RawScoreF.absent ≠ some PyFloat.nan
    ∧ (normalizeRawF RawScoreF.absent none).inUnit :=
  ⟨by simp [parseScoreF],
   claim_C3_amended.1 RawScoreF.absent none (by simp [parseScoreF])⟩

/-- C4: with an absent or unparsable score the normalizer maps a pure digit
label to 0 exactly when its integer value is 3 and to 1 otherwise, and any
other non-empty label to 0 exactly when its lowercasing contains "normal"
(so "Abnormal" gives 0) and to 1 otherwise; labels "3" and "7" give 0 and
1. -/
theorem claim_C4 :
    ∀ raw : RawScore, _parse_score raw = none →
      (∀ l : String, pyIsdigit l = true →
        normalizeRaw raw (some l) = if digitsToNat l = 3 then 0 else 1)
      ∧ (∀ l : String, l ≠ "" → pyIsdigit l = false →
        normalizeRaw raw (some l) =
          if strContainsSub (pyLower l) "normal" then 0 else 1)
      ∧ normalizeRaw raw (some "3") = 0
      ∧ normalizeRaw raw (some "7") = 1
      ∧ normalizeRaw raw (some "Abnormal") = 0 := by
  intro raw h
  have key : ∀ lab : Option String,
      normalizeRaw raw lab = (_label_to_risk lab).getD 0.5 := by
    intro lab
    unfold normalizeRaw
    rw [h]
    rfl
  refine ⟨?_, ?_, ?_, ?_, ?_⟩
  · intro l hd
    have hne : l ≠ "" := by
      intro he
      subst he
      exact absurd hd (by decide)
    rw [key]
    simp only [_label_to_risk]
    rw [if_neg hne, if_pos hd]
    split_ifs <;> rfl
  · intro l hne hd
    rw [key]
    simp only [_label_to_risk]
    rw [if_neg hne, if_neg (by simp [hd])]
    split_ifs <;> rfl
  · rw [key]; rfl
  · rw [key]; rfl
  · rw [key]; rfl

/-- C4 witness: the digit rule applied to an absent score and label "3". -/
theorem claim_C4_witness :
    _parse_score RawScore.absent = none
    ∧ normalizeRaw RawScore.absent (some "3") = 0 :=
  ⟨rfl, (claim_C4 RawScore.absent rfl).2.2.1⟩

/-- C5 counterexample: a record with the unknown non-empty tag "XRAY" does
NOT default to ECG — it is grouped under "XRAY" and weighted with the default
0.2, not ECG's 0.45. -/
theorem claim_C5_counterexample :
    tagOf ⟨some "XRAY", RawScore.absent, none, none, 0⟩ = "XRAY"
    ∧ ("XRAY" : String) ≠ "ECG"
    ∧ weightOf "XRAY" = 0.2
    ∧ weightOf "ECG" = 0.45 := by
  refine ⟨by decide, by decide, rfl, rfl⟩

/-- C5 amended: only a missing or empty modality tag defaults to ECG; a
non-empty tag is kept (uppercased) as its own modality; in every case the
tag is non-empty after defaulting. -/
theorem claim_C5_amended :
    ∀ s : Submission,
      tagOf s ≠ ""
      ∧ (s.test_type.getD "" = "" → tagOf s = "ECG")
      ∧ (∀ t, s.test_type = some t → pyUpper t ≠ "" → tagOf s = pyUpper t) := by
  intro s
  refine ⟨?_, ?_, ?_⟩
  · unfold tagOf
    split_ifs with h
    · decide
    · exact h
  · intro h
    simp [tagOf, h, pyUpper]
  · intro t ht hne
    simp [tagOf, ht, hne]

/-- C5 amended witness: a record with no tag at all gets tag "ECG". -/
theorem claim_C5_witness :
    (Submission.mk none RawScore.absent none none 0).test_type.getD "" = ""
    ∧ tagOf ⟨none, RawScore.absent, none, none, 0⟩ = "ECG" :=
  ⟨rfl, (claim_C5_amended ⟨none, RawScore.absent, none, none, 0⟩).2.1 rfl⟩

/-- C6: the selector keeps, for each tag, exactly the first record of the
(newest-first) input carrying that tag, and its keys are pairwise distinct;
on the example [(ECG,3), (PPG,2), (ECG,1)] it returns ECG@3 and PPG@2 and
never ECG@1. -/
theorem claim_C6 :
    (∀ (subs : List Submission) (t : String),
      List.lookup t (selectLatest subs) = subs.find? (fun s => tagOf s == t))
    ∧ (∀ subs : List Submission, ((selectLatest subs).map Prod.fst).Nodup)
    ∧ selectLatest
        [⟨some "ECG", RawScore.absent, none, none, 3⟩,
         ⟨some "PPG", RawScore.absent, none, none, 2⟩,
         ⟨some "ECG", RawScore.absent, none, none, 1⟩]
        = [("ECG", ⟨some "ECG", RawScore.absent, none, none, 3⟩),
           ("PPG", ⟨some "PPG", RawScore.absent, none, none, 2⟩)]
    ∧ (⟨some "ECG", RawScore.absent, none, none, 1⟩ : Submission) ∉
        (selectLatest
          [⟨some "ECG", RawScore.absent, none, none, 3⟩,
           ⟨some "PPG", RawScore.absent, none, none, 2⟩,
           ⟨some "ECG", RawScore.absent, none, none, 1⟩]).map Prod.snd := by
  refine ⟨?_, ?_, by decide, by decide⟩
  · intro subs t
    rw [selectLatest, selectAux_lookup]
    simp
  · intro subs
    exact (selectAux_keys subs []).1

/-- C7: end to end, a user whose only record is an ECG submission with label
"3" and no score gets overall exactly 0, tier "Low risk", and one modality
entry with result "Normal". -/
theorem claim_C7 :
    ∀ (name : Option String) (ts : ℕ),
      fusionReportCore [⟨some "ECG", RawScore.absent, some "3", name, ts⟩] =
        some (0, "Low risk",
          [⟨"ECG", "Normal", 0, name.getD "", ts⟩]) := by
  intro name ts
  have h1 : selectLatest [⟨some "ECG", RawScore.absent, some "3", name, ts⟩] =
      [("ECG", ⟨some "ECG", RawScore.absent, some "3", name, ts⟩)] := rfl
  have h2 : normalizeRaw RawScore.absent (some "3") = 0 := rfl
  have h3 : _aggregate_fusion [("ECG", 0)] = (0, "Low risk") := by
    have wE : weightOf "ECG" = 0.45 := rfl
    unfold _aggregate_fusion
    norm_num [wE, riskStatus]
  unfold fusionReportCore
  rw [if_neg (by simp)]
  simp only [h1, List.map_cons, List.map_nil, h2, h3]
  norm_num

/-- C8: guidance depends only on the tier — equal tiers give structurally
equal bundles — and the diet and habits lists are the same fixed constants
in every tier. -/
theorem claim_C8 :
    (∀ a b : ℚ, riskStatus a = riskStatus b →
      _build_guidance a = _build_guidance b)
    ∧ (∀ x : ℚ, (_build_guidance x).diet = dietList
        ∧ (_build_guidance x).habits = habitsList) := by
  constructor
  · intro a b h
    unfold riskStatus at h
    unfold _build_guidance
    split_ifs at h ⊢ <;> first | rfl | simp at h
  · intro x
    unfold _build_guidance
    split_ifs <;> exact ⟨rfl, rfl⟩

/-- C8 witness: 0.25 and 0.3 share tier "Moderate risk" and get the same
bundle. -/
theorem claim_C8_witness :
    riskStatus 0.25 = riskStatus 0.3
    ∧ _build_guidance 0.25 = _build_guidance 0.3 :=
  ⟨by norm_num [riskStatus], claim_C8.1 0.25 0.3 (by norm_num [riskStatus])⟩

/-- C9: with a missing SMTP host or sender the email route fails with the
configuration `HTTPException`, whose detail differs from every transport
failure detail; with valid configuration a transport failure raises the
transport `HTTPException`; and in all cases the generated PDF is on disk in
the final state. -/
theorem claim_C9 :
    ∀ (cfg : SmtpConfig) (send : Except String Unit) (files : List String)
      (pdf : String),
      (cfg.host = "" ∨ cfg.sender = "" →
        (fusionReportEmailStep cfg send files pdf).2 =
          Except.error ⟨500, smtpNotConfiguredDetail⟩)
      ∧ (∀ e : String, smtpNotConfiguredDetail ≠ sendFailDetail e)
      ∧ (∀ e : String, cfg.host ≠ "" → cfg.sender ≠ "" →
          send = Except.error e →
          (fusionReportEmailStep cfg send files pdf).2 =
            Except.error ⟨500, sendFailDetail e⟩)
      ∧ pdf ∈ (fusionReportEmailStep cfg send files pdf).1 := by
  intro cfg send files pdf
  refine ⟨?_, ?_, ?_, ?_⟩
  · intro h
    unfold fusionReportEmailStep
    rw [if_pos (by rcases h with h | h <;> simp [h])]
  · rintro ⟨ed⟩ h
    have h2 : smtpNotConfiguredDetail.data.head? =
        (sendFailDetail ⟨ed⟩).data.head? := by rw [h]
    have h3 : (sendFailDetail ⟨ed⟩).data.head? = some 'F' := rfl
    rw [h3] at h2
    exact absurd h2 (by decide)
  · intro e h1 h2 hs
    unfold fusionReportEmailStep
    rw [if_neg (by simp [h1, h2]), hs]
  · unfold fusionReportEmailStep
    split_ifs with h
    · exact List.mem_cons_self _ _
    · cases send <;> exact List.mem_cons_self _ _

/-- C9 witness: empty host with generated file "report.pdf" — configuration
error raised, file still present. -/
theorem claim_C9_witness :
    (fusionReportEmailStep ⟨"", "sender@x", ""⟩ (Except.ok ()) []
        "report.pdf").2 = Except.error ⟨500, smtpNotConfiguredDetail⟩
    ∧ "report.pdf" ∈
        (fusionReportEmailStep ⟨"", "sender@x", ""⟩ (Except.ok ()) []
          "report.pdf").1 :=
  ⟨(claim_C9 ⟨"", "sender@x", ""⟩ (Except.ok ()) [] "report.pdf").1
      (Or.inl rfl),
   (claim_C9 ⟨"", "sender@x", ""⟩ (Except.ok ()) [] "report.pdf").2.2.2⟩

/-- C10: modality tags are uppercased before grouping and weight lookup —
records whose tags agree after uppercasing are grouped together with the
newest kept, lowercase/mixed-case spellings land on the canonical tags, and
the canonical tags carry their canonical weights. -/
theorem claim_C10 :
    (∀ s1 s2 : Submission, tagOf s1 = tagOf s2 →
      selectLatest [s1, s2] = [(tagOf s1, s1)])
    ∧ tagOf ⟨some "ecg", RawScore.absent, none, none, 0⟩ = "ECG"
    ∧ tagOf ⟨some "pPg", RawScore.absent, none, none, 0⟩ = "PPG"
    ∧ tagOf ⟨some "heart_csv", RawScore.absent, none, none, 0⟩ = "HEART_CSV"
    ∧ weightOf "ECG" = 0.45 ∧ weightOf "PPG" = 0.25
    ∧ weightOf "HEART_CSV" = 0.30 := by
  refine ⟨?_, by decide, by decide, by decide, rfl, rfl, rfl⟩
  intro s1 s2 h
  simp [selectLatest, selectAux, h]

/-- C10 witness: "ECG" and "ecg" records group together, keeping the newer
record. -/
theorem claim_C10_witness :
    selectLatest
      [⟨some "ECG", RawScore.absent, none, none, 5⟩,
       ⟨some "ecg", RawScore.absent, none, none, 4⟩]
      = [("ECG", ⟨some "ECG", RawScore.absent, none, none, 5⟩)] := by
  rw [claim_C10.1 ⟨some "ECG", RawScore.absent, none, none, 5⟩
      ⟨some "ecg", RawScore.absent, none, none, 4⟩ (by decide)]
  decide

end HeartFusion
